import Mathlib

/-!
Verification of the Raven development-loop tooling (`src/cli/raven_dev.py`,
`src/cli/raven_build.py`, `src/cli/raven_serve.py` and the TodoApp copies).
The Python code is shallowly embedded: the build coordinator's two boolean
flags and fingerprint become an explicit state record, filesystem and
subprocess observations become explicit inputs, wall-clock time becomes a
rational parameter, and the injected browser script is embedded as a step
function on its single `lastHash` variable.
-/

namespace Raven

/-! ## Python string primitives -/

/-- Python `sub in s` (substring containment). -/
def pyContains (s sub : String) : Bool :=
  decide (sub.toList <:+: s.toList)

/-- Python `s.endswith(suf)`. -/
def pyEndsWith (s suf : String) : Bool :=
  decide (suf.toList <:+ s.toList)

/-- Python `s.lower()` (the code only lowercases ASCII diagnostics). -/
def pyLower (s : String) : String :=
  ⟨s.toList.map Char.toLower⟩

/-- Splitting a character list at every newline, keeping empty pieces;
`acc` holds the (reversed) characters of the piece being read. -/
def splitLinesAux : List Char → List Char → List String
  | [], acc => [⟨acc.reverse⟩]
  | c :: rest, acc =>
      if c = '\n' then ⟨acc.reverse⟩ :: splitLinesAux rest []
      else splitLinesAux rest (c :: acc)

/-- Python `s.split('\n')` (keeps empty pieces). -/
def pySplitLines (s : String) : List String :=
  splitLinesAux s.toList []

/-! ## Build coordinator state (`RavenDevServer`) -/

/-- The mutable fields of `RavenDevServer` that the build coordinator owns:
`self.building`, `self.build_queued`, `self.last_wasm_hash`. -/
structure CoordState where
  building : Bool
  build_queued : Bool
  last_wasm_hash : Option String
deriving DecidableEq, Repr

/-- `RavenDevServer.__init__`: `building = False`, `build_queued = False`,
`last_wasm_hash = None`. -/
def RavenDevServer.initState : CoordState :=
  { building := false, build_queued := false, last_wasm_hash := none }

/-- The external observations one execution of the `try:` block of
`build_wasm` makes: whether `subprocess.run` timed out, its exit status and
captured stderr, whether `wasm_src.exists()`, whether `shutil.copy2` or the
`get_wasm_hash`/`stat` calls raised, and the digest `get_wasm_hash()` returns
after the copy (`none` when the destination file is missing). -/
structure BuildEnv where
  timedOut : Bool
  returncode : Int
  stderr : String
  artifactExists : Bool
  copyRaises : Bool
  hashRaises : Bool
  dstDigest : Option String
deriving DecidableEq, Repr

/-- The `try:` block of `RavenDevServer.build_wasm`, short-circuiting exactly
as the code does; returns the boolean result of the call and the value of
`last_wasm_hash` after the block.  A `none` digest makes the
`new_hash[:8]` log line raise, which the `except Exception` arm turns into a
failed build before `last_wasm_hash` is assigned. -/
def build_wasm_try (last : Option String) (env : BuildEnv) : Bool × Option String :=
  if env.timedOut then (false, last)
  else if env.returncode != 0 then (false, last)
  else if !env.artifactExists then (false, last)
  else if env.copyRaises then (false, last)
  else if env.hashRaises then (false, last)
  else
    match env.dstDigest with
    | none => (false, last)
    | some h => (true, some h)

/-- The success condition of one build cycle, separated out so invariants can
be stated without re-running the cycle. -/
def envOk (env : BuildEnv) : Bool :=
  !env.timedOut && env.returncode == 0 && env.artifactExists
    && !env.copyRaises && !env.hashRaises && env.dstDigest.isSome

/-- Coordinator events: a `build_wasm` call arriving (`request`) and the
in-flight build's `try`/`finally` completing with observations `env`
(`finish`). -/
inductive Ev where
  | request : Ev
  | finish : BuildEnv → Ev
deriving DecidableEq, Repr

/-- One atomic coordinator step, returning the new state and how many build
executions the event started.  `request` is the head of `build_wasm`: if
`self.building` it sets `self.build_queued = True` and returns, otherwise it
sets `self.building = True` and begins an execution.  `finish` is the
`finally:` block: clear `building`; if `build_queued`, clear it and start the
queued follow-up execution on a fresh thread. -/
def coordStep (s : CoordState) (e : Ev) : CoordState × Nat :=
  match e with
  | .request =>
      if s.building then ({ s with build_queued := true }, 0)
      else ({ s with building := true }, 1)
  | .finish env =>
      if s.building then
        let r := build_wasm_try s.last_wasm_hash env
        if s.build_queued then
          ({ building := true, build_queued := false, last_wasm_hash := r.2 }, 1)
        else
          ({ building := false, build_queued := false, last_wasm_hash := r.2 }, 0)
      else (s, 0)

/-- Run a sequence of coordinator events, summing the build executions
started along the way. -/
def runCoord (s : CoordState) : List Ev → CoordState × Nat
  | [] => (s, 0)
  | e :: es =>
      let r := coordStep s e
      let r2 := runCoord r.1 es
      (r2.1, r.2 + r2.2)

/-! ## Change watcher (`SourceWatcher`) -/

/-- The mutable fields of `SourceWatcher.__init__`: `last_build` (timestamp of
the last accepted event) and `debounce_seconds`.  Wall-clock time is embedded
as a rational number of seconds. -/
structure SourceWatcher where
  last_build : ℚ
  debounce_seconds : ℚ
deriving DecidableEq, Repr

/-- `SourceWatcher.__init__`: `last_build = 0`, `debounce_seconds = 1.0`. -/
def SourceWatcher.initState : SourceWatcher :=
  { last_build := 0, debounce_seconds := 1 }

/-- A watchdog event as consumed by `on_modified`/`on_created`: the source
path, the directory flag, and the value `time.time()` yields while the event
is handled. -/
structure WatchEvent where
  src_path : String
  is_directory : Bool
  time : ℚ
deriving DecidableEq, Repr

/-- `SourceWatcher.should_trigger_build`: accept only `.swift` paths outside
dot-directories (the code tests the substrings `/.build/` and `/.`), and only
when at least `debounce_seconds` elapsed since `last_build`. -/
def should_trigger_build (w : SourceWatcher) (path : String) (now : ℚ) : Bool :=
  if !pyEndsWith path ".swift" then false
  else if pyContains path "/.build/" || pyContains path "/." then false
  else if now - w.last_build < w.debounce_seconds then false
  else true

/-- `SourceWatcher.on_modified` (and `on_created`, which delegates to it):
directory events are dropped; an accepted event records its time into
`last_build` and spawns `build_wasm` (returned as the boolean). -/
def on_modified (w : SourceWatcher) (e : WatchEvent) : SourceWatcher × Bool :=
  if e.is_directory then (w, false)
  else if should_trigger_build w e.src_path e.time then
    ({ w with last_build := e.time }, true)
  else (w, false)

/-- Feed a list of events to the watcher, counting how many triggered
`build_wasm`. -/
def runWatcher (w : SourceWatcher) : List WatchEvent → SourceWatcher × Nat
  | [] => (w, 0)
  | e :: es =>
      let r := on_modified w e
      let r2 := runWatcher r.1 es
      (r2.1, (if r.2 then 1 else 0) + r2.2)

/-! ## Status endpoint (`/api/status`) -/

/-- The JSON body returned by the `/api/status` route. -/
structure StatusResponse where
  building : Bool
  wasm_hash : Option String
  timestamp : String
deriving DecidableEq, Repr

/-- The `status` route handler: a read-only snapshot of the coordinator
state; `timestamp` is `datetime.now().isoformat()`, passed in here. -/
def apiStatus (s : CoordState) (now : String) : StatusResponse :=
  { building := s.building, wasm_hash := s.last_wasm_hash, timestamp := now }

/-! ## Response header policy (`add_headers`) -/

/-- An HTTP response as the `after_request` hooks see it: its mimetype and
its header map. -/
structure HttpResponse where
  mimetype : String
  headers : List (String × String)
deriving DecidableEq, Repr

/-- `response.headers[k] = v`: set a header, replacing any previous value. -/
def setHeader (hs : List (String × String)) (k v : String) : List (String × String) :=
  (k, v) :: hs.filter (fun p => p.1 != k)

/-- Look a header up in a response's header map. -/
def getHeader (hs : List (String × String)) (k : String) : Option String :=
  (hs.find? (fun p => p.1 == k)).map (fun p => p.2)

/-- `add_headers` of `raven_dev.py`: no-cache trio on `application/wasm`
responses, and `Access-Control-Allow-Origin: *` on every response. -/
def dev_add_headers (r : HttpResponse) : HttpResponse :=
  let r1 :=
    if r.mimetype = "application/wasm" then
      { r with headers :=
          setHeader (setHeader (setHeader r.headers
            "Cache-Control" "no-cache, no-store, must-revalidate")
            "Pragma" "no-cache") "Expires" "0" }
    else r
  { r1 with headers := setHeader r1.headers "Access-Control-Allow-Origin" "*" }

/-- `add_headers` of `raven_serve.py` (and `add_header` of the TodoApp
`serve.py`): only the no-cache trio on `application/wasm` responses; no
cross-origin header is added. -/
def serve_add_headers (r : HttpResponse) : HttpResponse :=
  if r.mimetype = "application/wasm" then
    { r with headers :=
        setHeader (setHeader (setHeader r.headers
          "Cache-Control" "no-cache, no-store, must-revalidate")
          "Pragma" "no-cache") "Expires" "0" }
  else r

/-! ## Error-line extraction -/

/-- The error filter both failure paths share:
`[line for line in stderr.split('\n') if 'error:' in line.lower()]`. -/
def errorLines (stderr : String) : List String :=
  (pySplitLines stderr).filter (fun line => pyContains (pyLower line) "error:")

/-- The lines `build_wasm` prints on a failed build (dev-loop context):
the first 5 error lines, then `... and N more errors` when more matched. -/
def devErrorReport (stderr : String) : List String :=
  let errors := errorLines stderr
  (errors.take 5).map (fun e => "  " ++ e)
    ++ (if 5 < errors.length then
          ["  ... and " ++ toString (errors.length - 5) ++ " more errors"]
        else [])

/-- The lines `build_command` of `raven_build.py` prints on a failed build in
the captured (non-verbose) mode: the first 10 error lines and nothing else;
`result.stderr` being empty (falsy) skips the extraction entirely. -/
def buildErrorReport (stderr : String) : List String :=
  if stderr = "" then []
  else ((errorLines stderr).take 10).map (fun e => "  " ++ e)

/-! ## Reload notifier (the injected browser script) -/

/-- JavaScript truthiness of `data.wasm_hash`: `null` and the empty string
are falsy. -/
def jsTruthy : Option String → Bool
  | none => false
  | some s => s != ""

/-- One execution of `checkForUpdates` from the injected script, as a step on
its `lastHash` variable given the observed `data.wasm_hash`; the boolean is
whether `window.location.reload()` ran. -/
def checkForUpdates (lastHash : Option String) (wasm_hash : Option String) :
    Option String × Bool :=
  match lastHash with
  | none => (wasm_hash, false)
  | some h =>
      if jsTruthy wasm_hash && wasm_hash != some h then (some h, true)
      else (some h, false)

/-- The value of `lastHash` after a sequence of polls (initially `null`). -/
def pollerLastHash (obs : List (Option String)) : Option String :=
  obs.foldl (fun lh o => (checkForUpdates lh o).1) none

/-- How many polls of a sequence triggered a reload. -/
def pollerReloads (obs : List (Option String)) : Nat :=
  (obs.foldl
    (fun (acc : Option String × Nat) o =>
      let r := checkForUpdates acc.1 o
      (r.1, acc.2 + if r.2 then 1 else 0))
    (none, 0)).2

/-! ## Hot-reload script injection (`inject_hot_reload`) -/

/-- Python `s.replace(old, new)` on character lists: left-to-right,
non-overlapping replacement of every occurrence (for a nonempty pattern). -/
def replaceList (pat rep : List Char) : List Char → List Char
  | [] => []
  | c :: rest =>
      if pat.isPrefixOf (c :: rest) then
        rep ++ replaceList pat rep (rest.drop (pat.length - 1))
      else
        c :: replaceList pat rep rest
termination_by l => l.length
decreasing_by
· simp only [List.length_cons, List.length_drop]
  omega
· simp only [List.length_cons]
  omega

/-- Python `s.replace(old, new)` on strings. -/
def pyReplace (s old new : String) : String :=
  ⟨replaceList old.toList new.toList s.toList⟩

/-- The script literal of `inject_hot_reload` in `raven_dev.py`
(braces written as \x7b/\x7d and quotes as \x27, same characters). -/
def hotReloadScript : String :=
  "\n    <!-- Raven Hot Reload -->\n    <script id=\"raven-hot-reload\">\n    (function() \x7b\n        let lastHash = null;\n        function checkForUpdates() \x7b\n            fetch(\x27/api/status\x27)\n                .then(r => r.json())\n                .then(data => \x7b\n                    if (lastHash === null) \x7b\n                        lastHash = data.wasm_hash;\n                        console.log(\x27🔥 Hot reload active\x27);\n                        return;\n                    \x7d\n                    if (data.wasm_hash && data.wasm_hash !== lastHash) \x7b\n                        console.log(\x27🔄 Reloading...\x27);\n                        window.location.reload();\n                    \x7d\n                \x7d)\n                .catch(() => \x7b\x7d);\n        \x7d\n        setInterval(checkForUpdates, 2000);\n        checkForUpdates();\n    \x7d)();\n    </script>\n    "

/-- `inject_hot_reload(html_path)` as a transformation of the file's content
(`none` models a missing file): a missing file, an already-injected marker,
or a missing `</body>` tag each leave the file untouched; otherwise every
`</body>` is replaced by the script followed by `\n</body>` and the file is
rewritten. -/
def inject_hot_reload (file : Option String) : Option String :=
  match file with
  | none => none
  | some content =>
      if pyContains content "raven-hot-reload" then some content
      else if pyContains content "</body>" then
        some (pyReplace content "</body>" (hotReloadScript ++ "\n</body>"))
      else some content

/-- Sample compiler diagnostics with eleven matching error lines, used to
exercise the two error-report formats. -/
def elevenErrors : String :=
  "error: 1\nerror: 2\nerror: 3\nerror: 4\nerror: 5\nerror: 6\nerror: 7\nerror: 8\nerror: 9\nerror: 10\nerror: 11"

/-! ## Helper lemmas -/

theorem runCoord_append (s : CoordState) (l₁ l₂ : List Ev) :
    runCoord s (l₁ ++ l₂)
      = ((runCoord (runCoord s l₁).1 l₂).1,
         (runCoord s l₁).2 + (runCoord (runCoord s l₁).1 l₂).2) := by
  induction l₁ generalizing s with
  | nil => simp [runCoord]
  | cons e es ih =>
      simp [runCoord, ih, Nat.add_assoc]

theorem runCoord_replicate_request (s : CoordState) (hb : s.building = true) (n : Nat) :
    runCoord s (List.replicate n Ev.request)
      = (⟨true, s.build_queued || decide (0 < n), s.last_wasm_hash⟩, 0) := by
  induction n generalizing s with
  | zero =>
      obtain ⟨b, q, h⟩ := s
      simp only [Bool.true_eq] at hb
      subst hb
      simp [runCoord]
  | succ m ih =>
      rw [List.replicate_succ]
      simp only [runCoord, coordStep, hb, if_true]
      rw [ih _ rfl]
      simp

theorem build_wasm_try_fst (last : Option String) (env : BuildEnv) :
    (build_wasm_try last env).1 = envOk env := by
  obtain ⟨tmo, rc, st, ae, cr, hr, dd⟩ := env
  by_cases hrc : rc = 0 <;>
    cases tmo <;> cases ae <;> cases cr <;> cases hr <;> cases dd <;>
      simp [build_wasm_try, envOk, hrc]

theorem build_wasm_try_snd (last : Option String) (env : BuildEnv) :
    (build_wasm_try last env).2 = if envOk env then env.dstDigest else last := by
  obtain ⟨tmo, rc, st, ae, cr, hr, dd⟩ := env
  by_cases hrc : rc = 0 <;>
    cases tmo <;> cases ae <;> cases cr <;> cases hr <;> cases dd <;>
      simp [build_wasm_try, envOk, hrc]

theorem runCoord_hash_of_no_success (s : CoordState) (evs : List Ev)
    (h : ∀ env : BuildEnv, Ev.finish env ∈ evs → envOk env = false) :
    (runCoord s evs).1.last_wasm_hash = s.last_wasm_hash := by
  induction evs generalizing s with
  | nil => rfl
  | cons e es ih =>
      have hstep : (coordStep s e).1.last_wasm_hash = s.last_wasm_hash := by
        match e with
        | .request => by_cases hb : s.building = true <;> simp [coordStep, hb]
        | .finish env =>
            have henv : envOk env = false := h env (by simp)
            by_cases hb : s.building = true <;>
              by_cases hq : s.build_queued = true <;>
                simp [coordStep, hb, hq, build_wasm_try_snd, henv]
      have htail : ∀ env : BuildEnv, Ev.finish env ∈ es → envOk env = false :=
        fun env hm => h env (List.mem_cons_of_mem _ hm)
      simp only [runCoord]
      rw [ih _ htail, hstep]

theorem checkForUpdates_some_fst (h : String) (o : Option String) :
    (checkForUpdates (some h) o).1 = some h := by
  by_cases hc : (jsTruthy o && o != some h) = true <;> simp [checkForUpdates, hc]

theorem foldl_checkForUpdates_some (obs : List (Option String)) (h : String) :
    obs.foldl (fun lh o => (checkForUpdates lh o).1) (some h) = some h := by
  induction obs with
  | nil => rfl
  | cons o rest ih => simp only [List.foldl_cons, checkForUpdates_some_fst, ih]

theorem pollerLastHash_eq_findSome (obs : List (Option String)) :
    pollerLastHash obs = obs.findSome? id := by
  induction obs with
  | nil => rfl
  | cons o rest ih =>
      cases o with
      | none =>
          show pollerLastHash rest = List.findSome? id (none :: rest)
          rw [ih]
          rfl
      | some h =>
          show List.foldl (fun lh o => (checkForUpdates lh o).1) (some h) rest
              = List.findSome? id (some h :: rest)
          rw [foldl_checkForUpdates_some]
          rfl

theorem find?_filter_of_key_ne (k k' : String) (hne : k ≠ k')
    (hs : List (String × String)) :
    (hs.filter (fun p => p.1 != k')).find? (fun p => p.1 == k)
      = hs.find? (fun p => p.1 == k) := by
  induction hs with
  | nil => rfl
  | cons x t ih =>
      by_cases hx : x.1 = k'
      · have h1 : (x.1 != k') = false := by simp [hx]
        have h2 : (x.1 == k) = false := by simp [hx]; exact fun hk => hne hk.symm
        simp [List.filter_cons, h1, List.find?_cons, h2, ih]
      · have h1 : (x.1 != k') = true := by simp [hx]
        by_cases hk : x.1 = k
        · simp [List.filter_cons, h1, List.find?_cons, hk, hne]
        · have h2 : (x.1 == k) = false := by simp [hk]
          simp [List.filter_cons, h1, List.find?_cons, h2, ih]

theorem getHeader_setHeader_self (hs : List (String × String)) (k v : String) :
    getHeader (setHeader hs k v) k = some v := by
  simp [getHeader, setHeader, List.find?_cons]

theorem getHeader_setHeader_ne (hs : List (String × String)) (k k' v : String)
    (hne : k ≠ k') :
    getHeader (setHeader hs k' v) k = getHeader hs k := by
  have h0 : (k' == k) = false := by simp; exact fun hk => hne hk.symm
  simp only [getHeader, setHeader, List.find?_cons, h0, Bool.false_eq_true, if_false]
  rw [find?_filter_of_key_ne k k' hne hs]

theorem infix_replaceList {pat rep : List Char} (hne : pat ≠ [])
    (s : List Char) (h : pat <:+: s) : rep <:+: replaceList pat rep s := by
  induction s with
  | nil => exact absurd (List.infix_nil.mp h) hne
  | cons c rest ih =>
      rw [replaceList]
      by_cases hp : pat.isPrefixOf (c :: rest) = true
      · rw [if_pos hp]
        exact ⟨[], _, rfl⟩
      · rw [if_neg hp]
        have h' : pat <:+: rest := by
          rcases List.infix_cons_iff.mp h with hpre | hinf
          · exact absurd (List.isPrefixOf_iff_prefix.mpr hpre) hp
          · exact hinf
        exact List.infix_cons (ih h')

/-! ## Claim theorems -/

/-- C1: while a build is in flight (`building = true`), any number `n ≥ 1`
of further `build_wasm` calls start no build execution at all (so a second
concurrent build never starts), and once the in-flight build and its queued
follow-up have run to completion, the whole burst amounts to at most 2 build
executions: the in-flight one plus exactly one queued follow-up. -/
theorem requestBuild_at_most_two_executions (s : CoordState) (env env' : BuildEnv)
    (n : Nat) (hb : s.building = true) (hn : 1 ≤ n) :
    (runCoord s (List.replicate n Ev.request)).2 = 0 ∧
    1 + (runCoord s (List.replicate n Ev.request
          ++ [Ev.finish env, Ev.finish env'])).2 ≤ 2 := by
  have hreq := runCoord_replicate_request s hb n
  have hpos : decide (0 < n) = true := by simpa using hn
  refine ⟨by rw [hreq], ?_⟩
  rw [runCoord_append, hreq]
  simp [runCoord, coordStep, hpos]

/-- C1 witness: three calls arriving during an in-flight build, followed by
the in-flight build and its queued follow-up completing, give 2 total
executions. -/
theorem requestBuild_at_most_two_executions_witness :
    (runCoord ⟨true, false, none⟩ (List.replicate 3 Ev.request)).2 = 0 ∧
    1 + (runCoord ⟨true, false, none⟩ (List.replicate 3 Ev.request
          ++ [Ev.finish ⟨false, 0, "", true, false, false, some "aa"⟩,
              Ev.finish ⟨false, 0, "", true, false, false, some "aa"⟩])).2 ≤ 2 :=
  requestBuild_at_most_two_executions ⟨true, false, none⟩
    ⟨false, 0, "", true, false, false, some "aa"⟩
    ⟨false, 0, "", true, false, false, some "aa"⟩ 3 rfl (by decide)

/-- C4: every `build_wasm` call, in every coordinator state, either starts a
build execution (and leaves the coordinator building) or sets the
queued-retry flag, and in the latter case the flag makes the in-flight
build's completion start exactly one more execution.  (When the flag was
already set the call re-executes the assignment, leaving the same
obligation in place.) -/
theorem requestBuild_no_silent_drop (s : CoordState) (env : BuildEnv) :
    ((coordStep s Ev.request).2 = 1 ∧ (coordStep s Ev.request).1.building = true) ∨
    ((coordStep s Ev.request).2 = 0 ∧ (coordStep s Ev.request).1.build_queued = true ∧
      (coordStep (coordStep s Ev.request).1 (Ev.finish env)).2 = 1) := by
  by_cases hb : s.building = true
  · right
    simp [coordStep, hb]
  · left
    simp [coordStep, hb]

/-- C2 counterexample: a build cycle that exits with status zero, finds the
artifact, and copies it, while the copied artifact's digest equals the stored
fingerprint (a rebuild that reproduced the identical binary): the build
succeeds, yet `last_wasm_hash` does not change — refuting the claimed
"changes if and only if". -/
theorem fingerprint_change_iff_counterexample :
    (build_wasm_try (some "d41d8cd98f00b204e9800998ecf8427e")
        ⟨false, 0, "", true, false, false,
         some "d41d8cd98f00b204e9800998ecf8427e"⟩).1 = true ∧
    (build_wasm_try (some "d41d8cd98f00b204e9800998ecf8427e")
        ⟨false, 0, "", true, false, false,
         some "d41d8cd98f00b204e9800998ecf8427e"⟩).2
      = some "d41d8cd98f00b204e9800998ecf8427e" := by
  decide

/-- C2 amended: a build cycle reports success exactly when it neither timed
out nor exited nonzero, the artifact exists, and the copy/hash steps raise no
exception with a present digest; on success `last_wasm_hash` is overwritten
with the copied artifact's digest (which may equal the previous value), and
after any failure outcome `last_wasm_hash` is exactly the value it had before
the call. -/
theorem fingerprint_update_policy (last : Option String) (env : BuildEnv) :
    ((build_wasm_try last env).1 = true ↔
        env.timedOut = false ∧ env.returncode = 0 ∧ env.artifactExists = true ∧
        env.copyRaises = false ∧ env.hashRaises = false ∧ env.dstDigest ≠ none) ∧
    ((build_wasm_try last env).1 = true →
        (build_wasm_try last env).2 = env.dstDigest) ∧
    ((build_wasm_try last env).1 = false →
        (build_wasm_try last env).2 = last) := by
  obtain ⟨tmo, rc, st, ae, cr, hr, dd⟩ := env
  by_cases hrc : rc = 0 <;>
    cases tmo <;> cases ae <;> cases cr <;> cases hr <;> cases dd <;>
      simp [build_wasm_try, hrc]

/-- C2 witness: a cycle that times out leaves the stored fingerprint intact,
and a fully successful cycle stores the copied artifact's digest. -/
theorem fingerprint_update_policy_witness :
    (build_wasm_try (some "aa") ⟨true, 0, "x", true, false, false, some "bb"⟩).2
      = some "aa" ∧
    (build_wasm_try (some "aa") ⟨false, 0, "", true, false, false, some "bb"⟩).2
      = some "bb" :=
  ⟨(fingerprint_update_policy (some "aa")
      ⟨true, 0, "x", true, false, false, some "bb"⟩).2.2 (by decide),
   (fingerprint_update_policy (some "aa")
      ⟨false, 0, "", true, false, false, some "bb"⟩).2.1 (by decide)⟩

/-- C3: the debounce gate is global across all watched files — a valid
non-directory source-file event is accepted exactly when at least
`debounce_seconds` elapsed since the last accepted event, whatever file
either event concerned, and acceptance records the event's time into the
gate; consequently 5 events on distinct valid source files inside a 200 ms
window, arriving at a watcher whose gate is open, invoke `build_wasm`
exactly once. -/
theorem debounce_gate_global (w : SourceWatcher) (e1 e2 e3 e4 e5 : WatchEvent)
    (hdeb : w.debounce_seconds = 1)
    (hvalid : ∀ e ∈ [e1, e2, e3, e4, e5], e.is_directory = false ∧
        pyEndsWith e.src_path ".swift" = true ∧
        pyContains e.src_path "/.build/" = false ∧
        pyContains e.src_path "/." = false)
    (hdist : [e1.src_path, e2.src_path, e3.src_path, e4.src_path, e5.src_path].Nodup)
    (ht12 : e1.time ≤ e2.time) (ht23 : e2.time ≤ e3.time)
    (ht34 : e3.time ≤ e4.time) (ht45 : e4.time ≤ e5.time)
    (hwin : e5.time - e1.time ≤ 1 / 5)
    (hopen : 1 ≤ e1.time - w.last_build) :
    (∀ (w' : SourceWatcher) (e : WatchEvent), e.is_directory = false →
        pyEndsWith e.src_path ".swift" = true →
        pyContains e.src_path "/.build/" = false →
        pyContains e.src_path "/." = false →
        (((on_modified w' e).2 = true ↔
            w'.debounce_seconds ≤ e.time - w'.last_build) ∧
         ((on_modified w' e).2 = true →
            (on_modified w' e).1.last_build = e.time))) ∧
    (runWatcher w [e1, e2, e3, e4, e5]).2 = 1 := by
  have gate : ∀ (w' : SourceWatcher) (e : WatchEvent), e.is_directory = false →
      pyEndsWith e.src_path ".swift" = true →
      pyContains e.src_path "/.build/" = false →
      pyContains e.src_path "/." = false →
      (((on_modified w' e).2 = true ↔
          w'.debounce_seconds ≤ e.time - w'.last_build) ∧
       ((on_modified w' e).2 = true →
          (on_modified w' e).1.last_build = e.time)) := by
    intro w' e hd hs hb hp
    have hcond : should_trigger_build w' e.src_path e.time
        = !decide (e.time - w'.last_build < w'.debounce_seconds) := by
      simp [should_trigger_build, hs, hb, hp]
    constructor
    · by_cases hle : w'.debounce_seconds ≤ e.time - w'.last_build <;>
        simp [on_modified, hd, hcond, not_lt, hle]
    · intro htr
      have : should_trigger_build w' e.src_path e.time = true := by
        by_contra hfalse
        simp [on_modified, hd, hfalse] at htr
      simp [on_modified, hd, this]
  refine ⟨gate, ?_⟩
  obtain ⟨hd1, hs1, hb1, hp1⟩ := hvalid e1 (by simp)
  obtain ⟨hd2, hs2, hb2, hp2⟩ := hvalid e2 (by simp)
  obtain ⟨hd3, hs3, hb3, hp3⟩ := hvalid e3 (by simp)
  obtain ⟨hd4, hs4, hb4, hp4⟩ := hvalid e4 (by simp)
  obtain ⟨hd5, hs5, hb5, hp5⟩ := hvalid e5 (by simp)
  have t1 : should_trigger_build w e1.src_path e1.time = true := by
    simp [should_trigger_build, hs1, hb1, hp1, hdeb, not_lt]
    linarith
  have reject : ∀ e : WatchEvent, pyEndsWith e.src_path ".swift" = true →
      pyContains e.src_path "/.build/" = false → pyContains e.src_path "/." = false →
      e.time ≤ e5.time → e1.time ≤ e.time →
      should_trigger_build { w with last_build := e1.time } e.src_path e.time = false := by
    intro e hs hb hp hle hge
    have hlt : e.time - e1.time < 1 := by
      have : e.time - e1.time ≤ 1 / 5 := by linarith
      linarith
    simp [should_trigger_build, hs, hb, hp, hdeb]
    exact hlt
  have o1 : on_modified w e1 = ({ w with last_build := e1.time }, true) := by
    simp [on_modified, hd1, t1]
  have o2 : on_modified { w with last_build := e1.time } e2
      = ({ w with last_build := e1.time }, false) := by
    simp [on_modified, hd2, reject e2 hs2 hb2 hp2 (by linarith) ht12]
  have o3 : on_modified { w with last_build := e1.time } e3
      = ({ w with last_build := e1.time }, false) := by
    simp [on_modified, hd3, reject e3 hs3 hb3 hp3 (by linarith) (by linarith)]
  have o4 : on_modified { w with last_build := e1.time } e4
      = ({ w with last_build := e1.time }, false) := by
    simp [on_modified, hd4, reject e4 hs4 hb4 hp4 (by linarith) (by linarith)]
  have o5 : on_modified { w with last_build := e1.time } e5
      = ({ w with last_build := e1.time }, false) := by
    simp [on_modified, hd5, reject e5 hs5 hb5 hp5 (by linarith) (by linarith)]
  simp [runWatcher, o1, o2, o3, o4, o5]

/-- C3 witness: five distinct `.swift` files saved at 5.00 s, 5.05 s, 5.10 s,
5.15 s and 5.20 s against a fresh watcher trigger exactly one build. -/
theorem debounce_gate_global_witness :
    (runWatcher SourceWatcher.initState
      [⟨"Sources/A.swift", false, 5⟩, ⟨"Sources/B.swift", false, 101 / 20⟩,
       ⟨"Sources/C.swift", false, 51 / 10⟩, ⟨"Sources/D.swift", false, 103 / 20⟩,
       ⟨"Sources/E.swift", false, 26 / 5⟩]).2 = 1 :=
  (debounce_gate_global SourceWatcher.initState
      ⟨"Sources/A.swift", false, 5⟩ ⟨"Sources/B.swift", false, 101 / 20⟩
      ⟨"Sources/C.swift", false, 51 / 10⟩ ⟨"Sources/D.swift", false, 103 / 20⟩
      ⟨"Sources/E.swift", false, 26 / 5⟩
      rfl (by decide) (by decide) (by norm_num) (by norm_num) (by norm_num)
      (by norm_num) (by norm_num) (by norm_num [SourceWatcher.initState])).2

/-- C5 counterexample: the event path `.build/debug/App.swift` lies under the
`.build` cache (its first segment is a dot-directory), yet with the debounce
gate open it triggers a build: the code's filter tests the substrings
`/.build/` and `/.`, which both miss a leading dot segment in a relative
path. -/
theorem dot_directory_filter_counterexample :
    (on_modified SourceWatcher.initState
      ⟨".build/debug/App.swift", false, 10⟩).2 = true := by
  have hs : pyEndsWith ".build/debug/App.swift" ".swift" = true := by decide
  have hb : pyContains ".build/debug/App.swift" "/.build/" = false := by decide
  have hp : pyContains ".build/debug/App.swift" "/." = false := by decide
  have ht : ¬((10 : ℚ) - (0 : ℚ) < 1) := by norm_num
  simp [on_modified, should_trigger_build, SourceWatcher.initState, hs, hb, hp, ht]

/-- C5 amended: the watcher never triggers a build for a directory event, for
a path not ending in `.swift`, or for a path with a dot-started segment in
any position other than the first (i.e. containing the substring `/.`, which
covers `/.build/`); a modification of `Sources/App/Main.swift` does trigger a
build when the debounce gate is open. -/
theorem watch_event_filter (w : SourceWatcher) (e : WatchEvent) :
    (e.is_directory = true → (on_modified w e).2 = false) ∧
    (pyEndsWith e.src_path ".swift" = false → (on_modified w e).2 = false) ∧
    (pyContains e.src_path "/." = true → (on_modified w e).2 = false) ∧
    (e.is_directory = false → e.src_path = "Sources/App/Main.swift" →
      w.debounce_seconds ≤ e.time - w.last_build → (on_modified w e).2 = true) := by
  refine ⟨?_, ?_, ?_, ?_⟩
  · intro hd
    simp [on_modified, hd]
  · intro hs
    by_cases hd : e.is_directory = true <;> simp [on_modified, should_trigger_build, hd, hs]
  · intro hp
    by_cases hd : e.is_directory = true <;> simp [on_modified, should_trigger_build, hd, hp]
  · intro hd hpath hgate
    have hs : pyEndsWith e.src_path ".swift" = true := by rw [hpath]; decide
    have hb : pyContains e.src_path "/.build/" = false := by rw [hpath]; decide
    have hp : pyContains e.src_path "/." = false := by rw [hpath]; decide
    have hgate' : ¬(e.time - w.last_build < w.debounce_seconds) := not_lt.mpr hgate
    simp [on_modified, should_trigger_build, hd, hs, hb, hp, hgate']

/-- C5 witness: with an open gate, `Sources/App/Main.swift` triggers a build
and `public/index.html` does not. -/
theorem watch_event_filter_witness :
    (on_modified SourceWatcher.initState
      ⟨"Sources/App/Main.swift", false, 7⟩).2 = true ∧
    (on_modified SourceWatcher.initState
      ⟨"public/index.html", false, 7⟩).2 = false :=
  ⟨(watch_event_filter SourceWatcher.initState
      ⟨"Sources/App/Main.swift", false, 7⟩).2.2.2 rfl rfl
      (by norm_num [SourceWatcher.initState]),
   (watch_event_filter SourceWatcher.initState
      ⟨"public/index.html", false, 7⟩).2.1 (by decide)⟩

/-- C6 counterexample: when the script's first status observation is a null
fingerprint (no build yet), the recorded baseline is null; the second poll
then observes the non-null fingerprint `"a"`, which differs from that
baseline, yet no reload fires — the script merely re-baselines, because its
first-poll test is `lastHash === null`.  This refutes the claimed
"reload if and only if non-null and different from the baseline". -/
theorem reload_baseline_counterexample :
    pollerLastHash [none] = none ∧
    (some "a" ≠ (none : Option String)) ∧
    (checkForUpdates (pollerLastHash [none]) (some "a")).2 = false ∧
    pollerReloads [none, some "a"] = 0 := by
  decide

/-- C6 amended: the first status observation never triggers a reload even
when a fingerprint is already present; the baseline `lastHash` is the first
non-null fingerprint observed (null observations re-baseline silently); no
poll reloads while the baseline is null; and once the baseline is a
fingerprint `h`, a poll reloads exactly when it observes a non-null
(and non-empty, as every server-produced digest is) fingerprint different
from `h`. -/
theorem reload_notifier_policy (past : List (Option String)) (o : Option String)
    (h : String) :
    ((checkForUpdates none o).2 = false) ∧
    (pollerLastHash past = past.findSome? id) ∧
    (pollerLastHash past = none →
        (checkForUpdates (pollerLastHash past) o).2 = false) ∧
    (pollerLastHash past = some h → o ≠ none → o ≠ some "" →
        ((checkForUpdates (pollerLastHash past) o).2 = true ↔ o ≠ some h)) := by
  refine ⟨rfl, pollerLastHash_eq_findSome past, ?_, ?_⟩
  · intro hnone
    rw [hnone]
    rfl
  · intro hsome hno hne
    rw [hsome]
    obtain ⟨x, rfl⟩ : ∃ x, o = some x := by
      cases o with
      | none => exact absurd rfl hno
      | some x => exact ⟨x, rfl⟩
    have hx : (x != "") = true := by
      simpa using fun hx => hne (by rw [hx])
    by_cases hxh : x = h
    · subst hxh
      simp [checkForUpdates, jsTruthy]
    · simp [checkForUpdates, jsTruthy, hx, hxh]

/-- C6 witness: after observations `[null, "h1", "h1"]` the baseline is
`"h1"`, and a poll observing `"h2"` reloads. -/
theorem reload_notifier_policy_witness :
    (checkForUpdates (pollerLastHash [none, some "h1", some "h1"])
      (some "h2")).2 = true :=
  ((reload_notifier_policy [none, some "h1", some "h1"] (some "h2") "h1").2.2.2
      (by decide) (by decide) (by decide)).mpr (by decide)

/-- C7 counterexample: `__init__` sets `last_wasm_hash = None` and nothing
re-derives it from the served directory, so a `GET /api/status` issued
before any build returns a null fingerprint even when an artifact whose
digest is `d41d8cd98f00b204e9800998ecf8427e` (the md5 of an existing empty
artifact file) sits in the served directory — not that artifact's
fingerprint, as the claim states. -/
theorem status_before_build_counterexample :
    (apiStatus RavenDevServer.initState "2026-10-12T00:00:00").wasm_hash = none ∧
    (none : Option String) ≠ some "d41d8cd98f00b204e9800998ecf8427e" := by
  decide

/-- C7 amended: the fingerprint starts as null at server start and is never
re-derived from an artifact already in the served directory: after any event
sequence containing no successful build completion, `/api/status` still
reports a null fingerprint; it first becomes non-null when a successful
build stores the copied artifact's digest. -/
theorem status_null_until_first_successful_build (evs : List Ev) (t : String)
    (h : ∀ env : BuildEnv, Ev.finish env ∈ evs → envOk env = false) :
    (apiStatus (runCoord RavenDevServer.initState evs).1 t).wasm_hash = none := by
  have := runCoord_hash_of_no_success RavenDevServer.initState evs h
  simpa [apiStatus, RavenDevServer.initState] using this

/-- C7 witness: after a build that fails with exit status 1, the status
endpoint still reports a null fingerprint. -/
theorem status_null_until_first_successful_build_witness :
    (apiStatus (runCoord RavenDevServer.initState
        [Ev.request, Ev.finish ⟨false, 1, "error: x", true, false, false, none⟩]).1
      "2026-10-12T00:00:01").wasm_hash = none :=
  status_null_until_first_successful_build
    [Ev.request, Ev.finish ⟨false, 1, "error: x", true, false, false, none⟩]
    "2026-10-12T00:00:01"
    (by
      intro env hm
      simp only [List.mem_cons, List.not_mem_nil, or_false, reduceCtorEq,
        false_or, Ev.finish.injEq] at hm
      subst hm
      decide)

/-- C8 counterexample: on diagnostics with eleven matching error lines the
one-shot build context prints exactly the first ten and nothing else — no
`... and N more errors` summary line appears, contrary to the claim that
both contexts summarize the remainder as a count (only the dev loop does). -/
theorem one_shot_error_summary_counterexample :
    (errorLines elevenErrors).length = 11 ∧
    (buildErrorReport elevenErrors).length = 10 ∧
    (buildErrorReport elevenErrors).all
      (fun l => !pyContains l "more errors") = true ∧
    (devErrorReport elevenErrors).length = 6 := by
  decide

/-- C8 amended: failed-build diagnostics are scanned for lines containing
the marker `error:` case-insensitively; the dev loop prints the matching
lines when at most 5 match and otherwise the first 5 followed by a
`... and N more errors` count of the remainder, while the one-shot build
context prints only the first 10 matching lines, with no summary of the
remainder. -/
theorem error_line_extraction_policy (stderr : String) (h : stderr ≠ "") :
    errorLines stderr
      = (pySplitLines stderr).filter
          (fun line => pyContains (pyLower line) "error:") ∧
    ((errorLines stderr).length ≤ 5 →
        devErrorReport stderr = (errorLines stderr).map (fun e => "  " ++ e)) ∧
    (5 < (errorLines stderr).length →
        devErrorReport stderr
          = ((errorLines stderr).take 5).map (fun e => "  " ++ e)
            ++ ["  ... and " ++ toString ((errorLines stderr).length - 5)
                  ++ " more errors"]) ∧
    buildErrorReport stderr
      = ((errorLines stderr).take 10).map (fun e => "  " ++ e) := by
  refine ⟨rfl, ?_, ?_, ?_⟩
  · intro hle
    have hnot : ¬(5 < (errorLines stderr).length) := by omega
    simp [devErrorReport, hnot, List.take_of_length_le hle]
  · intro hlt
    simp [devErrorReport, hlt]
  · simp [buildErrorReport, h]

/-- C8 witness: a single matching line is printed as-is in both contexts. -/
theorem error_line_extraction_policy_witness :
    devErrorReport "error: a\nok" = ["  error: a"] ∧
    buildErrorReport "error: a\nok" = ["  error: a"] :=
  ⟨((error_line_extraction_policy "error: a\nok" (by decide)).2.1
      (by decide)).trans (by decide),
   ((error_line_extraction_policy "error: a\nok" (by decide)).2.2.2).trans
      (by decide)⟩

/-- C9 counterexample: the serve variant's `after_request` hook
(`raven_serve.py`, and the TodoApp `serve.py`) adds no
`Access-Control-Allow-Origin` header, so its responses — here a WASM
response — carry no permissive cross-origin header, contrary to the claim
that every response from the server does; the dev server's hook does add
it. -/
theorem serve_missing_cors_counterexample :
    getHeader (serve_add_headers ⟨"application/wasm", []⟩).headers
      "Access-Control-Allow-Origin" = none ∧
    getHeader (dev_add_headers ⟨"application/wasm", []⟩).headers
      "Access-Control-Allow-Origin" = some "*" := by
  decide

/-- C9 amended: every response whose content type is `application/wasm`
carries all three no-cache headers after either server's `after_request`
hook; every dev-server response additionally carries
`Access-Control-Allow-Origin: *`, while the serve variant adds no
cross-origin header (for non-WASM responses it leaves the response
untouched); non-WASM responses receive no no-cache headers. -/
theorem response_header_policy (r : HttpResponse) :
    (r.mimetype = "application/wasm" →
        getHeader (dev_add_headers r).headers "Cache-Control"
            = some "no-cache, no-store, must-revalidate" ∧
        getHeader (dev_add_headers r).headers "Pragma" = some "no-cache" ∧
        getHeader (dev_add_headers r).headers "Expires" = some "0" ∧
        getHeader (serve_add_headers r).headers "Cache-Control"
            = some "no-cache, no-store, must-revalidate" ∧
        getHeader (serve_add_headers r).headers "Pragma" = some "no-cache" ∧
        getHeader (serve_add_headers r).headers "Expires" = some "0") ∧
    getHeader (dev_add_headers r).headers "Access-Control-Allow-Origin"
        = some "*" ∧
    (r.mimetype ≠ "application/wasm" →
        serve_add_headers r = r ∧
        (dev_add_headers r).headers
            = setHeader r.headers "Access-Control-Allow-Origin" "*") := by
  have neCA : ("Cache-Control" : String) ≠ "Access-Control-Allow-Origin" := by decide
  have neCE : ("Cache-Control" : String) ≠ "Expires" := by decide
  have neCP : ("Cache-Control" : String) ≠ "Pragma" := by decide
  have nePA : ("Pragma" : String) ≠ "Access-Control-Allow-Origin" := by decide
  have nePE : ("Pragma" : String) ≠ "Expires" := by decide
  have neEA : ("Expires" : String) ≠ "Access-Control-Allow-Origin" := by decide
  refine ⟨?_, ?_, ?_⟩
  · intro hm
    refine ⟨?_, ?_, ?_, ?_, ?_, ?_⟩ <;>
      simp [dev_add_headers, serve_add_headers, hm,
        getHeader_setHeader_ne _ _ _ _ neCA, getHeader_setHeader_ne _ _ _ _ neCE,
        getHeader_setHeader_ne _ _ _ _ neCP, getHeader_setHeader_ne _ _ _ _ nePA,
        getHeader_setHeader_ne _ _ _ _ nePE, getHeader_setHeader_ne _ _ _ _ neEA,
        getHeader_setHeader_self]
  · by_cases hm : r.mimetype = "application/wasm" <;>
      simp [dev_add_headers, hm, getHeader_setHeader_self]
  · intro hm
    constructor
    · simp [serve_add_headers, hm]
    · simp [dev_add_headers, hm]

/-- C9 witness: a WASM response gets the full no-cache trio plus the
cross-origin header from the dev server, and the trio from the serve
variant. -/
theorem response_header_policy_witness :
    getHeader (dev_add_headers ⟨"application/wasm", []⟩).headers "Pragma"
        = some "no-cache" ∧
    getHeader (serve_add_headers ⟨"application/wasm", []⟩).headers "Expires"
        = some "0" :=
  ⟨((response_header_policy ⟨"application/wasm", []⟩).1 rfl).2.1,
   ((response_header_policy ⟨"application/wasm", []⟩).1 rfl).2.2.2.2.2⟩

/-- C10: `inject_hot_reload` is idempotent on every HTML file state: a
missing file, a file already containing the `raven-hot-reload` marker, and a
file without a `</body>` tag are left unchanged, and an injection leaves the
marker in the file, so a second application changes nothing. -/
theorem inject_hot_reload_idempotent (file : Option String) :
    inject_hot_reload (inject_hot_reload file) = inject_hot_reload file := by
  cases file with
  | none => rfl
  | some content =>
      by_cases h1 : pyContains content "raven-hot-reload" = true
      · simp [inject_hot_reload, h1]
      · by_cases h2 : pyContains content "</body>" = true
        · have hpat : ("</body>".toList : List Char) ≠ [] := by decide
          have hinf : "</body>".toList <:+: content.toList :=
            of_decide_eq_true
              (show decide ("</body>".toList <:+: content.toList) = true from h2)
          have hrep : ((hotReloadScript ++ "\n</body>").toList : List Char)
              <:+: replaceList "</body>".toList
                    (hotReloadScript ++ "\n</body>").toList content.toList :=
            infix_replaceList hpat _ hinf
          have hm : ("raven-hot-reload".toList : List Char)
              <:+: hotReloadScript.toList := by decide
          have hmark : ("raven-hot-reload".toList : List Char)
              <:+: (hotReloadScript ++ "\n</body>").toList := by
            have happ : (hotReloadScript ++ "\n</body>").toList
                = hotReloadScript.toList ++ "\n</body>".toList := rfl
            rw [happ]
            exact hm.trans ⟨[], "\n</body>".toList, by simp⟩
          have key : pyContains
              (pyReplace content "</body>" (hotReloadScript ++ "\n</body>"))
              "raven-hot-reload" = true := by
            apply decide_eq_true
            exact hmark.trans hrep
          simp [inject_hot_reload, h1, h2, key]
        · simp [inject_hot_reload, h1, h2]

end Raven
